import Mathlib

/-!
# Verification of the structured-output extraction and recovery pipeline

This development embeds, in Lean 4, the structured-output pipeline of the
`lumios` repository: the shared response extractor (first `\x7b` / last `\x7d`
heuristic plus JSON parse), the per-flow Zod validators, the per-flow
normalization ("light cleaning") passes, the fallback synthesizers, and the
transport error handling of `PollinationsService.generateText` and of the
four AI flows (`analyzeEnergyImage`, `analyzeInspirationImage`,
`generateDesignSuggestionsWithPollinations`, `analyzeUserProfile`).

JavaScript built-ins used by the source are modelled explicitly:
`String.prototype.trim` (`jsTrim`), `String.prototype.substring` with its
argument clamping and swapping (`jsSubstring`), `indexOf`/`lastIndexOf`
(`jsIndexOf`/`jsLastIndexOf`), `Array.prototype.filter(Boolean)` on string
arrays (`filterTruthy`, an empty string being the only falsy string), and
`JSON.parse` (`parseJson`, a strict JSON grammar parser; numbers are modelled
as exact rationals, and lone UTF-16 surrogates in `\uXXXX` escapes are
modelled as U+FFFD since Lean characters are Unicode scalar values).
-/

/-- Whitespace stripped by `String.prototype.trim` (the common WhiteSpace and
LineTerminator code points). -/
def jsWhitespaceChar (c : Char) : Bool :=
  c == ' ' || c == '\t' || c == '\n' || c == '\r' ||
  c == '\x0b' || c == '\x0c' || c == ' '

/-- The character list underlying `String.prototype.trim`: drop leading and
trailing whitespace. -/
def trimChars (l : List Char) : List Char :=
  List.rdropWhile jsWhitespaceChar (List.dropWhile jsWhitespaceChar l)

/-- Model of `String.prototype.trim`. -/
def jsTrim (s : String) : String :=
  ⟨trimChars s.data⟩

/-- Model of the flows' `safeClean` helper: `(text || '').trim()` (JavaScript
`undefined` becomes the empty string before trimming). -/
def safeClean (text : Option String) : String :=
  jsTrim (text.getD "")

/-- Model of `.map(safeClean).filter(Boolean)` on a string array: trim every
element, then drop the elements that became empty (the only falsy string). -/
def cleanStrArray (l : List String) : List String :=
  (l.map (fun s => safeClean (some s))).filter (fun s => s != "")

/-- Model of `.filter(Boolean)` on a string array: drop empty strings, without
trimming. -/
def filterTruthy (l : List String) : List String :=
  l.filter (fun s => s != "")

/-- Model of `String.prototype.indexOf` for a single character (`none` stands
for JavaScript's `-1`). -/
def firstIdxFrom (c : Char) : List Char → Option Nat
  | [] => none
  | x :: xs => if x == c then some 0 else (firstIdxFrom c xs).map (· + 1)

/-- `responseContent.indexOf(c)`, with `none` for `-1`. -/
def jsIndexOf (s : String) (c : Char) : Option Nat :=
  firstIdxFrom c s.data

/-- `responseContent.lastIndexOf(c)`, with `none` for `-1`. -/
def jsLastIndexOf (s : String) (c : Char) : Option Nat :=
  (firstIdxFrom c s.data.reverse).map (fun k => s.data.length - 1 - k)

/-- Model of `String.prototype.substring(start, finish)`: both arguments are
clamped to the string length and swapped when `start > finish`. -/
def jsSubstring (s : String) (start finish : Nat) : String :=
  let len := s.data.length
  let a := min start len
  let b := min finish len
  ⟨(s.data.drop (min a b)).take (max a b - min a b)⟩

/-! ## Generic JSON values and a model of `JSON.parse` -/

/-- Generic (untyped) JSON value, the result of `JSON.parse`. Numbers are
modelled as exact rationals. -/
inductive Json where
  | null
  | bool (b : Bool)
  | num (q : Rat)
  | str (s : String)
  | arr (elems : List Json)
  | obj (fields : List (String × Json))

/-- Field lookup on a parsed JSON object. `JSON.parse` keeps the last value
for a duplicated key, so the lookup scans from the end. -/
def Json.lookupField (fields : List (String × Json)) (name : String) : Option Json :=
  (fields.reverse.find? (fun p => p.1 == name)).map (fun p => p.2)

/-- JSON insignificant whitespace. -/
def jsonWs (c : Char) : Bool :=
  c == ' ' || c == '\t' || c == '\n' || c == '\r'

/-- Skip insignificant whitespace. -/
def skipWs : List Char → List Char
  | [] => []
  | c :: cs => if jsonWs c then skipWs cs else c :: cs

/-- Value of one hexadecimal digit. -/
def hexVal (c : Char) : Option Nat :=
  if '0' ≤ c ∧ c ≤ '9' then some (c.toNat - '0'.toNat)
  else if 'a' ≤ c ∧ c ≤ 'f' then some (c.toNat - 'a'.toNat + 10)
  else if 'A' ≤ c ∧ c ≤ 'F' then some (c.toNat - 'A'.toNat + 10)
  else none

/-- Four hexadecimal digits of a `\uXXXX` escape. -/
def unicodeEscape (cs : List Char) : Option (Nat × List Char) :=
  match cs with
  | h1 :: h2 :: h3 :: h4 :: rest =>
    match hexVal h1, hexVal h2, hexVal h3, hexVal h4 with
    | some a, some b, some c, some d => some ((((a * 16 + b) * 16 + c) * 16 + d), rest)
    | _, _, _, _ => none
  | _ => none

/-- JSON string body (after the opening quote). Unescaped control characters
are rejected as in `JSON.parse`. A `\uXXXX` surrogate pair yields the encoded
code point; a lone surrogate (legal for `JSON.parse`, but not a Unicode
scalar value) is modelled as U+FFFD. -/
def parseJsonString : Nat → List Char → List Char → Option (String × List Char)
  | 0, _, _ => none
  | fuel + 1, cs, acc =>
    match cs with
    | [] => none
    | '"' :: rest => some (⟨acc.reverse⟩, rest)
    | '\\' :: esc =>
      match esc with
      | '"' :: rest => parseJsonString fuel rest ('"' :: acc)
      | '\\' :: rest => parseJsonString fuel rest ('\\' :: acc)
      | '/' :: rest => parseJsonString fuel rest ('/' :: acc)
      | 'b' :: rest => parseJsonString fuel rest (Char.ofNat 8 :: acc)
      | 'f' :: rest => parseJsonString fuel rest (Char.ofNat 12 :: acc)
      | 'n' :: rest => parseJsonString fuel rest ('\n' :: acc)
      | 'r' :: rest => parseJsonString fuel rest ('\r' :: acc)
      | 't' :: rest => parseJsonString fuel rest ('\t' :: acc)
      | 'u' :: rest =>
        match unicodeEscape rest with
        | some (code, rest2) =>
          if 0xD800 ≤ code ∧ code ≤ 0xDBFF then
            match rest2 with
            | '\\' :: 'u' :: rest3 =>
              match unicodeEscape rest3 with
              | some (low, rest4) =>
                if 0xDC00 ≤ low ∧ low ≤ 0xDFFF then
                  parseJsonString fuel rest4
                    (Char.ofNat (0x10000 + (code - 0xD800) * 0x400 + (low - 0xDC00)) :: acc)
                else parseJsonString fuel rest2 (Char.ofNat 0xFFFD :: acc)
              | none => parseJsonString fuel rest2 (Char.ofNat 0xFFFD :: acc)
            | _ => parseJsonString fuel rest2 (Char.ofNat 0xFFFD :: acc)
          else if 0xDC00 ≤ code ∧ code ≤ 0xDFFF then
            parseJsonString fuel rest2 (Char.ofNat 0xFFFD :: acc)
          else
            parseJsonString fuel rest2 (Char.ofNat code :: acc)
        | none => none
      | _ => none
    | c :: rest => if c.toNat < 32 then none else parseJsonString fuel rest (c :: acc)

/-- Decimal digit test. -/
def isDigitChar (c : Char) : Bool := '0' ≤ c && c ≤ '9'

/-- Split a leading run of decimal digits. -/
def takeDigits : List Char → List Char × List Char
  | [] => ([], [])
  | c :: cs =>
    if isDigitChar c then
      let p := takeDigits cs
      (c :: p.1, p.2)
    else ([], c :: cs)

/-- Value of a digit run. -/
def digitsToNat (ds : List Char) : Nat :=
  ds.foldl (fun acc c => acc * 10 + (c.toNat - '0'.toNat)) 0

/-- Exact rational value `mant * 10 ^ e`, built with core `mkRat` so that it
evaluates by kernel reduction. -/
def scalePow10 (mant : Int) (e : Int) : Rat :=
  if 0 ≤ e then mkRat (mant * (10 : Int) ^ e.toNat) 1
  else mkRat mant ((10 : Nat) ^ (-e).toNat)

/-- JSON number, per the strict `JSON.parse` grammar (no leading `+`, no
leading zeros, no bare `.`); the exact rational value is kept. -/
def parseJsonNumber (cs : List Char) : Option (Rat × List Char) :=
  let sign := match cs with | '-' :: rest => (true, rest) | _ => (false, cs)
  let ipp := takeDigits sign.2
  if ipp.1 = [] then none
  else if ipp.1.length > 1 ∧ ipp.1.head? = some '0' then none
  else
    let fpp : Option (List Char) × List Char :=
      match ipp.2 with
      | '.' :: rest =>
        let p := takeDigits rest
        (some p.1, p.2)
      | _ => (none, ipp.2)
    match fpp.1 with
    | some [] => none
    | _ =>
      let fdigits := (fpp.1).getD []
      let epp : Option Int × List Char :=
        match fpp.2 with
        | 'e' :: rest | 'E' :: rest =>
          let sgn : Int × List Char :=
            match rest with
            | '+' :: r => (1, r)
            | '-' :: r => (-1, r)
            | _ => (1, rest)
          let ep := takeDigits sgn.2
          (if ep.1 = [] then none else some (sgn.1 * (digitsToNat ep.1 : Int)), ep.2)
        | _ => (some 0, fpp.2)
      match epp.1 with
      | none => none
      | some ex =>
        let mant : Int := (digitsToNat ipp.1 * 10 ^ fdigits.length + digitsToNat fdigits : Nat)
        let mant := if sign.1 then -mant else mant
        some (scalePow10 mant (ex - fdigits.length), epp.2)

/-- Combined parse result for the three mutually recursive productions of
the JSON grammar (value, array elements, object members). -/
inductive JsonParseOut where
  | val (v : Json) (rest : List Char)
  | elems (vs : List Json) (rest : List Char)
  | fields (fs : List (String × Json)) (rest : List Char)

/-- The recursive core of the JSON grammar, fuelled so that the recursion is
structural (each recursive call consumes at least one character, so
`length + 1` fuel always suffices).  `mode` 0 parses a value, 1 parses array
elements after `[`, 2 parses object members after `\x7b`. -/
def parseJsonCore : Nat → Nat → List Char → Option JsonParseOut
  | 0, _, _ => none
  | fuel + 1, 0, cs =>
    match cs with
    | 'n' :: 'u' :: 'l' :: 'l' :: rest => some (.val .null rest)
    | 't' :: 'r' :: 'u' :: 'e' :: rest => some (.val (.bool true) rest)
    | 'f' :: 'a' :: 'l' :: 's' :: 'e' :: rest => some (.val (.bool false) rest)
    | '"' :: rest =>
      match parseJsonString (rest.length + 1) rest [] with
      | some p => some (.val (.str p.1) p.2)
      | none => none
    | '[' :: rest =>
      match skipWs rest with
      | ']' :: rest2 => some (.val (.arr []) rest2)
      | cs2 =>
        match parseJsonCore fuel 1 cs2 with
        | some (.elems vs rest2) => some (.val (.arr vs) rest2)
        | _ => none
    | '{' :: rest =>
      match skipWs rest with
      | '}' :: rest2 => some (.val (.obj []) rest2)
      | cs2 =>
        match parseJsonCore fuel 2 cs2 with
        | some (.fields fs rest2) => some (.val (.obj fs) rest2)
        | _ => none
    | c :: _ =>
      if c == '-' || isDigitChar c then
        match parseJsonNumber cs with
        | some p => some (.val (.num p.1) p.2)
        | none => none
      else none
    | [] => none
  | fuel + 1, 1, cs =>
    match parseJsonCore fuel 0 cs with
    | some (.val v rest) =>
      (match skipWs rest with
      | ',' :: rest2 =>
        match parseJsonCore fuel 1 (skipWs rest2) with
        | some (.elems vs rest3) => some (.elems (v :: vs) rest3)
        | _ => none
      | ']' :: rest2 => some (.elems [v] rest2)
      | _ => none)
    | _ => none
  | fuel + 1, _, cs =>
    match cs with
    | '"' :: rest =>
      match parseJsonString (rest.length + 1) rest [] with
      | none => none
      | some (key, rest2) =>
        match skipWs rest2 with
        | ':' :: rest3 =>
          match parseJsonCore fuel 0 (skipWs rest3) with
          | some (.val v rest4) =>
            (match skipWs rest4 with
            | ',' :: rest5 =>
              match parseJsonCore fuel 2 (skipWs rest5) with
              | some (.fields fs rest6) => some (.fields ((key, v) :: fs) rest6)
              | _ => none
            | '}' :: rest5 => some (.fields [(key, v)] rest5)
            | _ => none)
          | _ => none
        | _ => none
    | _ => none

/-- JSON value at the head of the input (leading whitespace already skipped). -/
def parseJsonValue (fuel : Nat) (cs : List Char) : Option (Json × List Char) :=
  match parseJsonCore fuel 0 cs with
  | some (.val v rest) => some (v, rest)
  | _ => none

/-- Model of `JSON.parse`: one JSON value surrounded by optional whitespace,
with the whole input consumed; `none` models a thrown `SyntaxError`. -/
def parseJson (s : String) : Option Json :=
  match parseJsonValue (s.data.length + 1) (skipWs s.data) with
  | some (v, rest) => if skipWs rest = [] then some v else none
  | none => none

/-! ## Output contracts (from the Zod schemas) -/

/-- `AnalysisTypeSchema`: the enum of energy analysis types. -/
inductive AnalysisType where
  | energyField
  | crystalIdentification
  | chakraAssociation
  | environmentalEnergy
deriving DecidableEq

/-- `IdentifiedCrystalSchema`. -/
structure IdentifiedCrystal where
  name : String
  confidence : Option Rat
  details : Option String
deriving DecidableEq

/-- `EnergyImageAnalysisDetailsSchema`. -/
structure EnergyImageAnalysisDetails where
  energyObservations : Option String
  identificationNotes : Option String
  chakraReasoning : Option String
  environmentAssessment : Option String
deriving DecidableEq

/-- `EnergyImageAnalysisOutputSchema`. -/
structure EnergyImageAnalysisOutput where
  analysisType : AnalysisType
  summary : String
  details : Option EnergyImageAnalysisDetails
  identifiedCrystals : Option (List IdentifiedCrystal)
  associatedChakras : Option (List String)
  colorPalette : Option (List String)
deriving DecidableEq

/-- `DesignRecommendationDetailsSchema`. -/
structure DesignRecommendationDetails where
  overallTheme : String
  keyElementsAndShapes : List String
  textureAndPatternIdeas : List String
  potentialMaterials : Option (List String)
  narrativeOrSymbolism : Option String
deriving DecidableEq

/-- `AnalyzeInspirationImageOutputSchema`. -/
structure AnalyzeInspirationImageOutput where
  designRecommendations : DesignRecommendationDetails
  colorPalette : List String
deriving DecidableEq

/-- `DesignSchemeSchema`. -/
structure DesignScheme where
  schemeTitle : String
  mainStoneDescription : String
  auxiliaryStonesDescription : Option String
  chainOrStructureDescription : Option String
  otherDetails : Option String
deriving DecidableEq

/-- `DesignSuggestionsOutputSchema`. -/
structure DesignSuggestionsOutput where
  personalizedIntroduction : Option String
  designConcept : String
  designSchemes : List DesignScheme
  accessorySuggestions : String
  photographySettingSuggestions : String
  concludingRemarks : Option String
deriving DecidableEq

/-- `CrystalReasoningDetailsSchema`. -/
structure CrystalReasoningDetails where
  personalityFit : String
  chakraSupport : String
  goalAlignment : String
  holisticSynergy : String
deriving DecidableEq

/-- `RecommendedCrystalSchema`. -/
structure RecommendedCrystal where
  name : String
  reasoningDetails : CrystalReasoningDetails
  matchScore : Option Rat
deriving DecidableEq

/-- `CrystalCombinationSchema`. -/
structure CrystalCombination where
  combination : List String
  synergyEffect : String
deriving DecidableEq

/-- `UserProfileDataSchema`. -/
structure UserProfileDataOutput where
  name : Option String
  coreEnergyInsights : String
  inferredZodiac : String
  inferredChineseZodiac : String
  inferredElement : String
  inferredPlanet : String
  mbtiLikeType : String
  chakraAnalysis : String
  recommendedCrystals : Option (List RecommendedCrystal)
  crystalCombinations : Option (List CrystalCombination)
deriving DecidableEq

/-- Language tag `en | zh`. -/
inductive Lang where
  | en
  | zh
deriving DecidableEq

/-! ## Validators (models of `Schema.safeParse`)

Each validator walks the parsed JSON in lock-step with its Zod schema:
a required field must be present with the declared kind, an optional field
may be absent but must have the declared kind when present, array elements
are checked individually, nested objects recurse, and unknown extra keys are
ignored.  Issues are collected across fields (like Zod's issue array); each
issue is modelled as one rendered string `path: message` — a simplified
rendering of the Zod issue object, whose exact text the flows only embed
into diagnostic strings. -/

/-- Issue list of a failed validation. -/
def issuesOf {α : Type} : Except (List String) α → List String
  | .error e => e
  | .ok _ => []

/-- Join a parent path and a field name. -/
def pathJoin (parent fieldName : String) : String :=
  if parent = "" then fieldName else parent ++ "." ++ fieldName

/-- Expect a JSON string. -/
def vString (path : String) : Json → Except (List String) String
  | .str s => .ok s
  | _ => .error [path ++ ": Expected string"]

/-- Expect a JSON number. -/
def vNumber (path : String) : Json → Except (List String) Rat
  | .num q => .ok q
  | _ => .error [path ++ ": Expected number"]

/-- Collect element results, concatenating all issue lists. -/
def collectResults {α : Type} : List (Except (List String) α) → Except (List String) (List α)
  | [] => .ok []
  | r :: rs =>
    match r, collectResults rs with
    | .ok a, .ok as => .ok (a :: as)
    | ra, rb => .error (issuesOf ra ++ issuesOf rb)

/-- Expect a JSON array whose elements all satisfy `elem`. -/
def vArrayOf {α : Type} (elem : String → Json → Except (List String) α)
    (path : String) : Json → Except (List String) (List α)
  | .arr es => collectResults (es.enum.map (fun p => elem (pathJoin path (toString p.1)) p.2))
  | _ => .error [path ++ ": Expected array"]

/-- Required object field. -/
def vField {α : Type} (fields : List (String × Json)) (parent fieldName : String)
    (check : String → Json → Except (List String) α) : Except (List String) α :=
  match Json.lookupField fields fieldName with
  | some v => check (pathJoin parent fieldName) v
  | none => .error [pathJoin parent fieldName ++ ": Required"]

/-- Optional object field (`.optional()`: absent is fine, present values are
checked — `null` is not accepted). -/
def vOptField {α : Type} (fields : List (String × Json)) (parent fieldName : String)
    (check : String → Json → Except (List String) α) : Except (List String) (Option α) :=
  match Json.lookupField fields fieldName with
  | some v => (check (pathJoin parent fieldName) v).map some
  | none => .ok none

/-- Expect one of the four `AnalysisType` enum literals. -/
def vAnalysisType (path : String) : Json → Except (List String) AnalysisType
  | .str "energyField" => .ok .energyField
  | .str "crystalIdentification" => .ok .crystalIdentification
  | .str "chakraAssociation" => .ok .chakraAssociation
  | .str "environmentalEnergy" => .ok .environmentalEnergy
  | _ => .error [path ++ ": Invalid enum value"]

/-- `IdentifiedCrystalSchema.safeParse`. -/
def vIdentifiedCrystal (path : String) : Json → Except (List String) IdentifiedCrystal
  | .obj fs =>
    match vField fs path "name" vString, vOptField fs path "confidence" vNumber,
        vOptField fs path "details" vString with
    | .ok n, .ok c, .ok d => .ok ⟨n, c, d⟩
    | rn, rc, rd => .error (issuesOf rn ++ issuesOf rc ++ issuesOf rd)
  | _ => .error [path ++ ": Expected object"]

/-- `EnergyImageAnalysisDetailsSchema.safeParse`. -/
def vEnergyDetails (path : String) : Json → Except (List String) EnergyImageAnalysisDetails
  | .obj fs =>
    match vOptField fs path "energyObservations" vString,
        vOptField fs path "identificationNotes" vString,
        vOptField fs path "chakraReasoning" vString,
        vOptField fs path "environmentAssessment" vString with
    | .ok a, .ok b, .ok c, .ok d => .ok ⟨a, b, c, d⟩
    | ra, rb, rc, rd => .error (issuesOf ra ++ issuesOf rb ++ issuesOf rc ++ issuesOf rd)
  | _ => .error [path ++ ": Expected object"]

/-- `EnergyImageAnalysisOutputSchema.safeParse`. -/
def validateEnergyOutput (j : Json) : Except (List String) EnergyImageAnalysisOutput :=
  match j with
  | .obj fs =>
    match vField fs "" "analysisType" vAnalysisType, vField fs "" "summary" vString,
        vOptField fs "" "details" vEnergyDetails,
        vOptField fs "" "identifiedCrystals" (vArrayOf vIdentifiedCrystal),
        vOptField fs "" "associatedChakras" (vArrayOf vString),
        vOptField fs "" "colorPalette" (vArrayOf vString) with
    | .ok a, .ok b, .ok c, .ok d, .ok e, .ok f => .ok ⟨a, b, c, d, e, f⟩
    | ra, rb, rc, rd, re, rf =>
      .error (issuesOf ra ++ issuesOf rb ++ issuesOf rc ++ issuesOf rd ++ issuesOf re ++
        issuesOf rf)
  | _ => .error ["Expected object"]

/-- `DesignRecommendationDetailsSchema.safeParse`. -/
def vDesignRecommendationDetails (path : String) :
    Json → Except (List String) DesignRecommendationDetails
  | .obj fs =>
    match vField fs path "overallTheme" vString,
        vField fs path "keyElementsAndShapes" (vArrayOf vString),
        vField fs path "textureAndPatternIdeas" (vArrayOf vString),
        vOptField fs path "potentialMaterials" (vArrayOf vString),
        vOptField fs path "narrativeOrSymbolism" vString with
    | .ok a, .ok b, .ok c, .ok d, .ok e => .ok ⟨a, b, c, d, e⟩
    | ra, rb, rc, rd, re =>
      .error (issuesOf ra ++ issuesOf rb ++ issuesOf rc ++ issuesOf rd ++ issuesOf re)
  | _ => .error [path ++ ": Expected object"]

/-- `AnalyzeInspirationImageOutputSchema.safeParse`. -/
def validateInspirationOutput (j : Json) : Except (List String) AnalyzeInspirationImageOutput :=
  match j with
  | .obj fs =>
    match vField fs "" "designRecommendations" vDesignRecommendationDetails,
        vField fs "" "colorPalette" (vArrayOf vString) with
    | .ok a, .ok b => .ok ⟨a, b⟩
    | ra, rb => .error (issuesOf ra ++ issuesOf rb)
  | _ => .error ["Expected object"]

/-- `DesignSchemeSchema.safeParse`. -/
def vDesignScheme (path : String) : Json → Except (List String) DesignScheme
  | .obj fs =>
    match vField fs path "schemeTitle" vString, vField fs path "mainStoneDescription" vString,
        vOptField fs path "auxiliaryStonesDescription" vString,
        vOptField fs path "chainOrStructureDescription" vString,
        vOptField fs path "otherDetails" vString with
    | .ok a, .ok b, .ok c, .ok d, .ok e => .ok ⟨a, b, c, d, e⟩
    | ra, rb, rc, rd, re =>
      .error (issuesOf ra ++ issuesOf rb ++ issuesOf rc ++ issuesOf rd ++ issuesOf re)
  | _ => .error [path ++ ": Expected object"]

/-- `z.array(DesignSchemeSchema).min(1).max(3)`. -/
def vDesignSchemes (path : String) (j : Json) : Except (List String) (List DesignScheme) :=
  match vArrayOf vDesignScheme path j with
  | .ok l =>
    if l.length < 1 then .error [path ++ ": Array must contain at least 1 element(s)"]
    else if l.length > 3 then .error [path ++ ": Array must contain at most 3 element(s)"]
    else .ok l
  | .error e => .error e

/-- `DesignSuggestionsOutputSchema.safeParse`. -/
def validateDesignOutput (j : Json) : Except (List String) DesignSuggestionsOutput :=
  match j with
  | .obj fs =>
    match vOptField fs "" "personalizedIntroduction" vString,
        vField fs "" "designConcept" vString,
        vField fs "" "designSchemes" (fun p v => vDesignSchemes p v),
        vField fs "" "accessorySuggestions" vString,
        vField fs "" "photographySettingSuggestions" vString,
        vOptField fs "" "concludingRemarks" vString with
    | .ok a, .ok b, .ok c, .ok d, .ok e, .ok f => .ok ⟨a, b, c, d, e, f⟩
    | ra, rb, rc, rd, re, rf =>
      .error (issuesOf ra ++ issuesOf rb ++ issuesOf rc ++ issuesOf rd ++ issuesOf re ++
        issuesOf rf)
  | _ => .error ["Expected object"]

/-- `CrystalReasoningDetailsSchema.safeParse`. -/
def vCrystalReasoningDetails (path : String) :
    Json → Except (List String) CrystalReasoningDetails
  | .obj fs =>
    match vField fs path "personalityFit" vString, vField fs path "chakraSupport" vString,
        vField fs path "goalAlignment" vString, vField fs path "holisticSynergy" vString with
    | .ok a, .ok b, .ok c, .ok d => .ok ⟨a, b, c, d⟩
    | ra, rb, rc, rd => .error (issuesOf ra ++ issuesOf rb ++ issuesOf rc ++ issuesOf rd)
  | _ => .error [path ++ ": Expected object"]

/-- `RecommendedCrystalSchema.safeParse`. -/
def vRecommendedCrystal (path : String) : Json → Except (List String) RecommendedCrystal
  | .obj fs =>
    match vField fs path "name" vString,
        vField fs path "reasoningDetails" vCrystalReasoningDetails,
        vOptField fs path "matchScore" vNumber with
    | .ok a, .ok b, .ok c => .ok ⟨a, b, c⟩
    | ra, rb, rc => .error (issuesOf ra ++ issuesOf rb ++ issuesOf rc)
  | _ => .error [path ++ ": Expected object"]

/-- `CrystalCombinationSchema.safeParse`. -/
def vCrystalCombination (path : String) : Json → Except (List String) CrystalCombination
  | .obj fs =>
    match vField fs path "combination" (vArrayOf vString),
        vField fs path "synergyEffect" vString with
    | .ok a, .ok b => .ok ⟨a, b⟩
    | ra, rb => .error (issuesOf ra ++ issuesOf rb)
  | _ => .error [path ++ ": Expected object"]

/-- `UserProfileDataSchema.safeParse`. -/
def validateUserProfileOutput (j : Json) : Except (List String) UserProfileDataOutput :=
  match j with
  | .obj fs =>
    match vOptField fs "" "name" vString,
        vField fs "" "coreEnergyInsights" vString,
        vField fs "" "inferredZodiac" vString,
        vField fs "" "inferredChineseZodiac" vString,
        vField fs "" "inferredElement" vString,
        vField fs "" "inferredPlanet" vString,
        vField fs "" "mbtiLikeType" vString,
        vField fs "" "chakraAnalysis" vString,
        vOptField fs "" "recommendedCrystals" (vArrayOf vRecommendedCrystal),
        vOptField fs "" "crystalCombinations" (vArrayOf vCrystalCombination) with
    | .ok a, .ok b, .ok c, .ok d, .ok e, .ok f, .ok g, .ok h, .ok i, .ok jj =>
      .ok ⟨a, b, c, d, e, f, g, h, i, jj⟩
    | ra, rb, rc, rd, re, rf, rg, rh, ri, rj =>
      .error (issuesOf ra ++ issuesOf rb ++ issuesOf rc ++ issuesOf rd ++ issuesOf re ++
        issuesOf rf ++ issuesOf rg ++ issuesOf rh ++ issuesOf ri ++ issuesOf rj)
  | _ => .error ["Expected object"]

/-! ## Normalizers ("light cleaning" on validated data) -/

/-- `if (field) { field = safeClean(field) }` on an optional string field:
only truthy (present, non-empty) values are trimmed. -/
def cleanOptionalText : Option String → Option String
  | some s => if s != "" then some (jsTrim s) else some s
  | none => none

/-- Cleaning of one identified crystal inside `analyzeEnergyImage`:
`{ ...crystal, name: safeClean(name), details: safeClean(details) }`. -/
def normalizeIdentifiedCrystal (crystal : IdentifiedCrystal) : IdentifiedCrystal :=
  { crystal with
    name := safeClean (some crystal.name)
    details := some (safeClean crystal.details) }

/-- Cleaning of the `details` object inside `analyzeEnergyImage`. -/
def normalizeEnergyDetails (d : EnergyImageAnalysisDetails) : EnergyImageAnalysisDetails :=
  { energyObservations := cleanOptionalText d.energyObservations
    identificationNotes := cleanOptionalText d.identificationNotes
    chakraReasoning := cleanOptionalText d.chakraReasoning
    environmentAssessment := cleanOptionalText d.environmentAssessment }

/-- The normalization pass of `analyzeEnergyImage` on validated data.
Note: `colorPalette` is only `.filter(Boolean)`-ed, not trimmed. -/
def normalizeEnergy (data : EnergyImageAnalysisOutput) : EnergyImageAnalysisOutput :=
  { analysisType := data.analysisType
    summary := safeClean (some data.summary)
    details := data.details.map normalizeEnergyDetails
    identifiedCrystals := data.identifiedCrystals.map (List.map normalizeIdentifiedCrystal)
    associatedChakras := data.associatedChakras.map cleanStrArray
    colorPalette := data.colorPalette.map filterTruthy }

/-- The normalization pass of `analyzeInspirationImage` on validated data.
`potentialMaterials` falls back to `[]` via `?. … || []`; `colorPalette` is
only `.filter(Boolean)`-ed, not trimmed. -/
def normalizeInspiration (data : AnalyzeInspirationImageOutput) : AnalyzeInspirationImageOutput :=
  { designRecommendations :=
      { overallTheme := safeClean (some data.designRecommendations.overallTheme)
        keyElementsAndShapes := cleanStrArray data.designRecommendations.keyElementsAndShapes
        textureAndPatternIdeas := cleanStrArray data.designRecommendations.textureAndPatternIdeas
        potentialMaterials :=
          some (cleanStrArray (data.designRecommendations.potentialMaterials.getD []))
        narrativeOrSymbolism := some (safeClean data.designRecommendations.narrativeOrSymbolism) }
    colorPalette := filterTruthy data.colorPalette }

/-- Cleaning of one design scheme inside `generateDesignSuggestionsWithPollinations`. -/
def normalizeDesignScheme (scheme : DesignScheme) : DesignScheme :=
  { schemeTitle := safeClean (some scheme.schemeTitle)
    mainStoneDescription := safeClean (some scheme.mainStoneDescription)
    auxiliaryStonesDescription := some (safeClean scheme.auxiliaryStonesDescription)
    chainOrStructureDescription := some (safeClean scheme.chainOrStructureDescription)
    otherDetails := some (safeClean scheme.otherDetails) }

/-- The normalization pass of `generateDesignSuggestionsWithPollinations`. -/
def normalizeDesign (data : DesignSuggestionsOutput) : DesignSuggestionsOutput :=
  { personalizedIntroduction := some (safeClean data.personalizedIntroduction)
    designConcept := safeClean (some data.designConcept)
    designSchemes := data.designSchemes.map normalizeDesignScheme
    accessorySuggestions := safeClean (some data.accessorySuggestions)
    photographySettingSuggestions := safeClean (some data.photographySettingSuggestions)
    concludingRemarks := some (safeClean data.concludingRemarks) }

/-- Cleaning of one recommended crystal inside `analyzeUserProfile`. -/
def normalizeRecommendedCrystal (crystal : RecommendedCrystal) : RecommendedCrystal :=
  { crystal with
    name := safeClean (some crystal.name)
    reasoningDetails :=
      { personalityFit := safeClean (some crystal.reasoningDetails.personalityFit)
        chakraSupport := safeClean (some crystal.reasoningDetails.chakraSupport)
        goalAlignment := safeClean (some crystal.reasoningDetails.goalAlignment)
        holisticSynergy := safeClean (some crystal.reasoningDetails.holisticSynergy) } }

/-- The normalization pass of `analyzeUserProfile`: the optional crystal
arrays are materialized via `(… || []).map(…)`. -/
def normalizeUserProfile (data : UserProfileDataOutput) : UserProfileDataOutput :=
  { name := some (safeClean data.name)
    coreEnergyInsights := safeClean (some data.coreEnergyInsights)
    inferredZodiac := safeClean (some data.inferredZodiac)
    inferredChineseZodiac := safeClean (some data.inferredChineseZodiac)
    inferredElement := safeClean (some data.inferredElement)
    inferredPlanet := safeClean (some data.inferredPlanet)
    mbtiLikeType := safeClean (some data.mbtiLikeType)
    chakraAnalysis := safeClean (some data.chakraAnalysis)
    recommendedCrystals :=
      some ((data.recommendedCrystals.getD []).map normalizeRecommendedCrystal)
    crystalCombinations :=
      some ((data.crystalCombinations.getD []).map
        (fun combo => { combo with synergyEffect := safeClean (some combo.synergyEffect) })) }

/-! ## Shared response extractor -/

/-- The identical "Robust JSON Parsing" block of all four flows: index of the
first `\x7b` and of the last `\x7d` (throwing when either is `-1`), then
`JSON.parse` of `substring(jsonStart, jsonEnd + 1)` (throwing a `SyntaxError`
on parse failure). An `Except.error` is a raised JavaScript exception, about
to be absorbed by the enclosing `catch`; its message is discarded there. -/
def extractJsonSpan (responseContent : String) : Except String Json :=
  match jsIndexOf responseContent '{', jsLastIndexOf responseContent '}' with
  | some jsonStart, some jsonEnd =>
    match parseJson (jsSubstring responseContent jsonStart (jsonEnd + 1)) with
    | some parsedJson => .ok parsedJson
    | none => .error "Unexpected token in JSON"
  | _, _ => .error "No JSON object found in the AI's response."

/-! ## Fallback synthesizers and diagnostic strings -/

/-- Extraction-failure diagnostic of `analyzeEnergyImage` (the `errorText`
in its inner `catch`); the raw response is appended verbatim. -/
def energyParseErrorText (lang : Lang) (responseContent : String) : String :=
  match lang with
  | .zh => "抱歉，AI返回的数据格式不正确，无法解析能量分析。原始文本：\\n\\n" ++ responseContent
  | .en => "Sorry, the AI returned an invalid format for the energy analysis. Raw text:\\n\\n" ++
      responseContent

/-- Rendering of the Zod issue list embedded in validation diagnostics
(models `JSON.stringify(validationResult.error.errors)`). -/
def renderIssues (errs : List String) : String :=
  String.intercalate "; " errs

/-- Validation-failure diagnostic of `analyzeEnergyImage`. -/
def energyValidationErrorText (lang : Lang) (errs : List String) : String :=
  match lang with
  | .zh => "AI返回的能量分析结构不符合预期。详情: " ++ renderIssues errs
  | .en => "The energy analysis from the AI had an unexpected structure. Details: " ++
      renderIssues errs

/-- The fallback record of `analyzeEnergyImage` ("Return a valid error
structure"): `analysisType` echoes the input, `summary` carries the
diagnostic, the remaining fields are empty. -/
def energyFallback (analysisType : AnalysisType) (errorText : String) :
    EnergyImageAnalysisOutput :=
  { analysisType := analysisType
    summary := errorText
    details := some ⟨none, none, none, none⟩
    identifiedCrystals := some []
    associatedChakras := some []
    colorPalette := some [] }

/-- Extraction-failure diagnostic of `analyzeInspirationImage`. -/
def inspirationParseErrorText (lang : Lang) (responseContent : String) : String :=
  match lang with
  | .zh => "抱歉，AI返回的数据格式不正确，无法解析灵感分析。原始文本：\\n\\n" ++ responseContent
  | .en => "Sorry, the AI returned an invalid format for the inspiration analysis. Raw text:\\n\\n" ++
      responseContent

/-- Validation-failure diagnostic of `analyzeInspirationImage`. -/
def inspirationValidationErrorText (lang : Lang) (errs : List String) : String :=
  match lang with
  | .zh => "AI返回的灵感分析结构不符合预期。详情: " ++ renderIssues errs
  | .en => "The inspiration analysis from the AI had an unexpected structure. Details: " ++
      renderIssues errs

/-- The fallback record of `analyzeInspirationImage`: `overallTheme` carries
the diagnostic, everything else is empty. -/
def inspirationFallback (errorText : String) : AnalyzeInspirationImageOutput :=
  { designRecommendations :=
      { overallTheme := errorText
        keyElementsAndShapes := []
        textureAndPatternIdeas := []
        potentialMaterials := some []
        narrativeOrSymbolism := some "" }
    colorPalette := [] }

/-- Extraction-failure diagnostic of `generateDesignSuggestionsWithPollinations`. -/
def designParseErrorText (lang : Lang) (responseContent : String) : String :=
  match lang with
  | .zh => "抱歉，AI返回的数据格式不正确，无法解析设计建议。这是AI返回的原始文本：\\n\\n" ++
      responseContent
  | .en => "Sorry, the AI returned data in an incorrect format, and the design suggestions could not be parsed. Here is the raw text from the AI:\\n\\n" ++
      responseContent

/-- Validation-failure diagnostic of `generateDesignSuggestionsWithPollinations`. -/
def designValidationErrorText (lang : Lang) (errs : List String) : String :=
  match lang with
  | .zh => "AI返回的数据结构不符合预期。错误详情: " ++ renderIssues errs
  | .en => "The AI returned a data structure that did not match expectations. Error details: " ++
      renderIssues errs

/-- The extraction-failure fallback of `generateDesignSuggestionsWithPollinations`:
`designConcept` and `personalizedIntroduction` get fixed localized placeholder
text, and the diagnostic is carried by a single error scheme. -/
def designExtractionFallback (lang : Lang) (responseContent : String) : DesignSuggestionsOutput :=
  { designConcept := match lang with | .zh => "解析错误" | .en => "Parsing Error"
    personalizedIntroduction :=
      some (match lang with
        | .zh => "无法生成个性化介绍"
        | .en => "Could not generate personalized introduction.")
    designSchemes :=
      [{ schemeTitle := match lang with | .zh => "错误" | .en => "Error"
         mainStoneDescription := designParseErrorText lang responseContent
         auxiliaryStonesDescription := none
         chainOrStructureDescription := none
         otherDetails := none }]
    accessorySuggestions := ""
    photographySettingSuggestions := ""
    concludingRemarks := some "" }

/-- The validation-failure fallback of `generateDesignSuggestionsWithPollinations`. -/
def designValidationFallback (lang : Lang) (errs : List String) : DesignSuggestionsOutput :=
  { designConcept := match lang with | .zh => "验证失败" | .en => "Validation Error"
    personalizedIntroduction :=
      some (match lang with
        | .zh => "无法生成个性化介绍"
        | .en => "Could not generate personalized introduction.")
    designSchemes :=
      [{ schemeTitle := match lang with | .zh => "错误" | .en => "Error"
         mainStoneDescription := designValidationErrorText lang errs
         auxiliaryStonesDescription := none
         chainOrStructureDescription := none
         otherDetails := none }]
    accessorySuggestions := ""
    photographySettingSuggestions := ""
    concludingRemarks := some "" }

/-- Extraction-failure diagnostic of `analyzeUserProfile`. -/
def profileParseErrorText (lang : Lang) (responseContent : String) : String :=
  match lang with
  | .zh => "抱歉，AI返回的数据格式不正确，无法解析用户画像。原始文本：\\n\\n" ++ responseContent
  | .en => "Sorry, the AI returned an invalid format for the user profile. Raw text:\\n\\n" ++
      responseContent

/-- Validation-failure diagnostic of `analyzeUserProfile`. -/
def profileValidationErrorText (lang : Lang) (errs : List String) : String :=
  match lang with
  | .zh => "AI返回的用户画像结构不符合预期。详情: " ++ renderIssues errs
  | .en => "The user profile from the AI had an unexpected structure. Details: " ++
      renderIssues errs

/-- The fallback record of `analyzeUserProfile`: `name` is
`input.basicInfo?.name || placeholder`, `coreEnergyInsights` carries the
diagnostic, the remaining fields are empty. -/
def profileFallback (inputName placeholder errorText : String) : UserProfileDataOutput :=
  { name := some (if inputName != "" then inputName else placeholder)
    coreEnergyInsights := errorText
    inferredZodiac := ""
    inferredChineseZodiac := ""
    inferredElement := ""
    inferredPlanet := ""
    mbtiLikeType := ""
    chakraAnalysis := ""
    recommendedCrystals := some []
    crystalCombinations := some [] }

/-! ## Flow pipelines

Each flow's post-transport part (everything inside the outer `try` after
`await pollinationsService.generateText(...)` resolved) is an
`Except String` computation in which `Except.error` is a raised JavaScript
exception.  The inner `try/catch` around extraction returns the fallback
record; `safeParse` never throws; so every branch returns normally.  The
outer `catch` of the full flow rethrows a localized transport error. -/

/-- Post-transport part of `analyzeEnergyImage`. -/
def analyzeEnergyImagePost (analysisType : AnalysisType) (lang : Lang)
    (responseContent : String) : Except String EnergyImageAnalysisOutput :=
  match extractJsonSpan responseContent with
  | .error _e => .ok (energyFallback analysisType (energyParseErrorText lang responseContent))
  | .ok parsedJson =>
    match validateEnergyOutput parsedJson with
    | .ok data => .ok (normalizeEnergy data)
    | .error errs => .ok (energyFallback analysisType (energyValidationErrorText lang errs))

/-- Transport-error rethrow message of `analyzeEnergyImage`'s outer `catch`. -/
def energyTransportErrorMsg (lang : Lang) (errorMessage : String) : String :=
  match lang with
  | .zh => "调用能量分析服务失败: " ++ errorMessage
  | .en => "Failed to call energy analysis service: " ++ errorMessage

/-- `analyzeEnergyImage`: the `svc` argument is the settled result of the
`generateText` call (`Except.error` = the promise rejected; its payload is
the thrown error's message). -/
def analyzeEnergyImage (analysisType : AnalysisType) (language : Option Lang)
    (svc : Except String String) : Except String EnergyImageAnalysisOutput :=
  let lang := language.getD .en
  match svc.bind (analyzeEnergyImagePost analysisType lang) with
  | .ok data => .ok data
  | .error e => .error (energyTransportErrorMsg lang e)

/-- Post-transport part of `analyzeInspirationImage`. -/
def analyzeInspirationImagePost (lang : Lang) (responseContent : String) :
    Except String AnalyzeInspirationImageOutput :=
  match extractJsonSpan responseContent with
  | .error _e => .ok (inspirationFallback (inspirationParseErrorText lang responseContent))
  | .ok parsedJson =>
    match validateInspirationOutput parsedJson with
    | .ok data => .ok (normalizeInspiration data)
    | .error errs => .ok (inspirationFallback (inspirationValidationErrorText lang errs))

/-- Transport-error rethrow message of `analyzeInspirationImage`. -/
def inspirationTransportErrorMsg (lang : Lang) (errorMessage : String) : String :=
  match lang with
  | .zh => "调用灵感分析服务失败: " ++ errorMessage
  | .en => "Failed to call inspiration analysis service: " ++ errorMessage

/-- `analyzeInspirationImage`. -/
def analyzeInspirationImage (language : Option Lang) (svc : Except String String) :
    Except String AnalyzeInspirationImageOutput :=
  let lang := language.getD .en
  match svc.bind (analyzeInspirationImagePost lang) with
  | .ok data => .ok data
  | .error e => .error (inspirationTransportErrorMsg lang e)

/-- Post-transport part of `generateDesignSuggestionsWithPollinations`. -/
def generateDesignSuggestionsPost (lang : Lang) (responseContent : String) :
    Except String DesignSuggestionsOutput :=
  match extractJsonSpan responseContent with
  | .error _e => .ok (designExtractionFallback lang responseContent)
  | .ok parsedJson =>
    match validateDesignOutput parsedJson with
    | .ok data => .ok (normalizeDesign data)
    | .error errs => .ok (designValidationFallback lang errs)

/-- Transport-error rethrow message of `generateDesignSuggestionsWithPollinations`. -/
def designTransportErrorMsg (lang : Lang) (errorMessage : String) : String :=
  match lang with
  | .zh => "调用设计建议服务失败: " ++ errorMessage
  | .en => "Failed to call design suggestion service: " ++ errorMessage

/-- `generateDesignSuggestionsWithPollinations`. -/
def generateDesignSuggestionsWithPollinations (language : Option Lang)
    (svc : Except String String) : Except String DesignSuggestionsOutput :=
  let lang := language.getD .en
  match svc.bind (generateDesignSuggestionsPost lang) with
  | .ok data => .ok data
  | .error e => .error (designTransportErrorMsg lang e)

/-- Post-transport part of `analyzeUserProfile`; `inputName` is
`input.basicInfo?.name` (empty when missing). -/
def analyzeUserProfilePost (lang : Lang) (inputName : String) (responseContent : String) :
    Except String UserProfileDataOutput :=
  match extractJsonSpan responseContent with
  | .error _e =>
    .ok (profileFallback inputName "Error" (profileParseErrorText lang responseContent))
  | .ok parsedJson =>
    match validateUserProfileOutput parsedJson with
    | .ok data => .ok (normalizeUserProfile data)
    | .error errs =>
      .ok (profileFallback inputName "Validation Error" (profileValidationErrorText lang errs))

/-- Transport-error rethrow message of `analyzeUserProfile`. -/
def profileTransportErrorMsg (lang : Lang) (errorMessage : String) : String :=
  match lang with
  | .zh => "调用用户画像分析服务失败: " ++ errorMessage
  | .en => "Failed to call user profile analysis service: " ++ errorMessage

/-- `analyzeUserProfile`. -/
def analyzeUserProfile (language : Option Lang) (inputName : String)
    (svc : Except String String) : Except String UserProfileDataOutput :=
  let lang := language.getD .en
  match svc.bind (analyzeUserProfilePost lang inputName) with
  | .ok data => .ok data
  | .error e => .error (profileTransportErrorMsg lang e)

/-! ## Model of `PollinationsService.generateText` -/

/-- Outcome of the `fetch` call inside `generateText`: the promise rejected,
or a response arrived with an `ok` flag, a status code and a body text. -/
inductive FetchOutcome where
  | reject (msg : String)
  | response (ok : Bool) (status : Nat) (body : String)

/-- The fetch either rejected (its error propagates) or resolved; a non-`ok`
response raises `HTTP error! status: ...`; otherwise the body text is
returned.  This is the shape of both the GET and the POST branch of
`generateText`. -/
def fetchResultText (outcome : FetchOutcome) : Except String String :=
  match outcome with
  | .reject msg => .error msg
  | .response ok status body =>
    if ok then .ok body else .error ("HTTP error! status: " ++ toString status)

/-- `PollinationsService.generateText`: the whole body sits in one
`try/catch` whose handler replaces any thrown error with
`new Error('Failed to generate text')`. -/
def generateText (outcome : FetchOutcome) : Except String String :=
  match fetchResultText outcome with
  | .ok text => .ok text
  | .error _e => .error "Failed to generate text"

/-- The fetch failed: it rejected, or resolved with a non-success status. -/
def fetchFailed : FetchOutcome → Prop
  | .reject _ => True
  | .response ok _ _ => ok = false

/-! ## Classification and diagnostic redaction (for the language
non-interference statement) -/

/-- Which branch the post-transport pipeline takes; computed from the
language-independent stages only. -/
inductive PipelineBranch where
  | success
  | extractionFailed
  | validationFailed
deriving DecidableEq

/-- Branch taken by `analyzeEnergyImage` on a fixed raw response. -/
def energyClassification (responseContent : String) : PipelineBranch :=
  match extractJsonSpan responseContent with
  | .error _ => .extractionFailed
  | .ok parsedJson =>
    match validateEnergyOutput parsedJson with
    | .ok _ => .success
    | .error _ => .validationFailed

/-- Erase the diagnostic-bearing field of an energy output. -/
def redactEnergySummary (o : EnergyImageAnalysisOutput) : EnergyImageAnalysisOutput :=
  { o with summary := "" }

/-! ## Basic lemmas about the string utilities -/

theorem dropWhile_head_false {α : Type} {p : α → Bool} :
    ∀ (l : List α) (c : α) (rest : List α),
      List.dropWhile p l = c :: rest → p c = false := by
  intro l
  induction l with
  | nil => intro c rest h; simp [List.dropWhile] at h
  | cons x xs ih =>
    intro c rest h
    rw [List.dropWhile_cons] at h
    by_cases hx : p x = true
    · rw [if_pos hx] at h; exact ih c rest h
    · rw [if_neg hx] at h
      cases h
      simpa using hx

theorem dropWhile_trimChars (l : List Char) :
    List.dropWhile jsWhitespaceChar (trimChars l) = trimChars l := by
  obtain ⟨t, ht⟩ := List.rdropWhile_prefix jsWhitespaceChar
    (List.dropWhile jsWhitespaceChar l)
  cases hr : trimChars l with
  | nil => simp
  | cons c cs =>
    have hr' : List.rdropWhile jsWhitespaceChar (List.dropWhile jsWhitespaceChar l)
        = c :: cs := hr
    rw [hr'] at ht
    have hdw : List.dropWhile jsWhitespaceChar l = c :: (cs ++ t) := by
      rw [← ht]; simp
    have hc : jsWhitespaceChar c = false := dropWhile_head_false l c (cs ++ t) hdw
    rw [List.dropWhile_cons, if_neg (by simp [hc])]

theorem trimChars_idem (l : List Char) : trimChars (trimChars l) = trimChars l := by
  show List.rdropWhile _ (List.dropWhile _ (trimChars l)) = trimChars l
  rw [dropWhile_trimChars]
  show List.rdropWhile _ (List.rdropWhile _ (List.dropWhile _ l)) = _
  rw [List.rdropWhile_idempotent]
  rfl

theorem jsTrim_idem (s : String) : jsTrim (jsTrim s) = jsTrim s :=
  congrArg String.mk (trimChars_idem s.data)

theorem safeClean_some_idem (s : String) :
    safeClean (some (safeClean (some s))) = safeClean (some s) := by
  show jsTrim (jsTrim s) = jsTrim s
  exact jsTrim_idem s

theorem jsTrim_ne_empty {s : String} (h : jsTrim s ≠ "") : (jsTrim (jsTrim s) != "") = true := by
  rw [jsTrim_idem]
  simpa using h

theorem cleanStrArray_cons (x : String) (xs : List String) :
    cleanStrArray (x :: xs) =
      if (jsTrim x != "") = true then jsTrim x :: cleanStrArray xs else cleanStrArray xs := by
  simp only [cleanStrArray, List.map_cons, List.filter_cons]
  rfl

theorem cleanStrArray_idem (l : List String) :
    cleanStrArray (cleanStrArray l) = cleanStrArray l := by
  induction l with
  | nil => rfl
  | cons x xs ih =>
    rw [cleanStrArray_cons]
    by_cases h : (jsTrim x != "") = true
    · rw [if_pos h, cleanStrArray_cons, ih, jsTrim_idem]
      rw [if_pos h]
    · rw [if_neg h, ih]

theorem filterTruthy_idem (l : List String) :
    filterTruthy (filterTruthy l) = filterTruthy l := by
  induction l with
  | nil => rfl
  | cons x xs ih =>
    simp only [filterTruthy, List.filter_cons] at *
    by_cases h : (x != "") = true
    · rw [if_pos h]
      simp only [List.filter_cons]
      rw [if_pos h, ih]
    · rw [if_neg h, ih]

theorem firstIdxFrom_none_of_not_mem {c : Char} {l : List Char} (h : c ∉ l) :
    firstIdxFrom c l = none := by
  induction l with
  | nil => rfl
  | cons x xs ih =>
    have hx : (x == c) = false := by
      simp only [List.mem_cons, not_or] at h
      rw [beq_eq_false_iff_ne]
      exact fun he => h.1 he.symm
    rw [firstIdxFrom, if_neg (by simp [hx])]
    rw [ih (fun hm => h (List.mem_cons_of_mem x hm))]
    rfl

theorem firstIdxFrom_lt_length {c : Char} :
    ∀ {l : List Char} {i : Nat}, firstIdxFrom c l = some i → i < l.length := by
  intro l
  induction l with
  | nil => intro i h; exact Option.noConfusion h
  | cons x xs ih =>
    intro i h
    rw [show firstIdxFrom c (x :: xs)
        = if x == c then some 0 else (firstIdxFrom c xs).map (· + 1) from rfl] at h
    by_cases hx : (x == c) = true
    · rw [if_pos hx] at h
      cases h
      exact Nat.succ_pos _
    · rw [if_neg hx] at h
      cases hmap : firstIdxFrom c xs with
      | none => rw [hmap] at h; simp at h
      | some k =>
        rw [hmap] at h
        have h' : some (k + 1) = some i := h
        cases h'
        have := ih hmap
        simpa [Nat.succ_lt_succ_iff] using this

theorem cleanOptionalText_idem (o : Option String) :
    cleanOptionalText (cleanOptionalText o) = cleanOptionalText o := by
  match o with
  | none => rfl
  | some s =>
    show cleanOptionalText (if s != "" then some (jsTrim s) else some s)
        = if s != "" then some (jsTrim s) else some s
    by_cases h : (s != "") = true
    · rw [if_pos h]
      show (if jsTrim s != "" then some (jsTrim (jsTrim s)) else some (jsTrim s)) = _
      by_cases h2 : (jsTrim s != "") = true
      · rw [if_pos h2, jsTrim_idem]
      · rw [if_neg h2]
    · rw [if_neg h]
      show (if s != "" then some (jsTrim s) else some s) = some s
      rw [if_neg h]

theorem safeClean_safeClean (o : Option String) :
    safeClean (some (safeClean o)) = safeClean o := by
  show jsTrim (jsTrim (o.getD "")) = jsTrim (o.getD "")
  exact jsTrim_idem _

theorem normalizeIdentifiedCrystal_idem (c : IdentifiedCrystal) :
    normalizeIdentifiedCrystal (normalizeIdentifiedCrystal c) = normalizeIdentifiedCrystal c := by
  cases c with
  | mk n cf d =>
    simp only [normalizeIdentifiedCrystal, safeClean_some_idem, safeClean_safeClean]

theorem normalizeEnergyDetails_idem (d : EnergyImageAnalysisDetails) :
    normalizeEnergyDetails (normalizeEnergyDetails d) = normalizeEnergyDetails d := by
  cases d with
  | mk a b c e =>
    simp only [normalizeEnergyDetails, cleanOptionalText_idem]

/-- C5 helper: the energy normalizer is idempotent. -/
theorem normalizeEnergy_idem (x : EnergyImageAnalysisOutput) :
    normalizeEnergy (normalizeEnergy x) = normalizeEnergy x := by
  cases x with
  | mk at_ sm dt ic ac cp =>
    have hdt : Option.map normalizeEnergyDetails (Option.map normalizeEnergyDetails dt)
        = Option.map normalizeEnergyDetails dt := by
      cases dt with
      | none => rfl
      | some d =>
        show some (normalizeEnergyDetails (normalizeEnergyDetails d)) = _
        rw [normalizeEnergyDetails_idem]
        rfl
    have hic : Option.map (List.map normalizeIdentifiedCrystal)
          (Option.map (List.map normalizeIdentifiedCrystal) ic)
        = Option.map (List.map normalizeIdentifiedCrystal) ic := by
      cases ic with
      | none => rfl
      | some l =>
        show some (List.map normalizeIdentifiedCrystal (List.map normalizeIdentifiedCrystal l))
            = _
        rw [List.map_map]
        rw [show List.map (normalizeIdentifiedCrystal ∘ normalizeIdentifiedCrystal) l
            = List.map normalizeIdentifiedCrystal l from
          List.map_congr_left (fun c _ => normalizeIdentifiedCrystal_idem c)]
        rfl
    have hac : Option.map cleanStrArray (Option.map cleanStrArray ac)
        = Option.map cleanStrArray ac := by
      cases ac with
      | none => rfl
      | some l =>
        show some (cleanStrArray (cleanStrArray l)) = _
        rw [cleanStrArray_idem]
        rfl
    have hcp : Option.map filterTruthy (Option.map filterTruthy cp)
        = Option.map filterTruthy cp := by
      cases cp with
      | none => rfl
      | some l =>
        show some (filterTruthy (filterTruthy l)) = _
        rw [filterTruthy_idem]
        rfl
    simp only [normalizeEnergy]
    rw [safeClean_some_idem, hdt, hic, hac, hcp]

/-- C5 helper: the inspiration normalizer is idempotent. -/
theorem normalizeInspiration_idem (y : AnalyzeInspirationImageOutput) :
    normalizeInspiration (normalizeInspiration y) = normalizeInspiration y := by
  cases y with
  | mk dr cp =>
    cases dr with
    | mk ot ke tp pm ns =>
      simp only [normalizeInspiration]
      rw [safeClean_some_idem, cleanStrArray_idem, cleanStrArray_idem, filterTruthy_idem]
      rw [show (Option.getD (some (cleanStrArray (pm.getD []))) []) = cleanStrArray (pm.getD [])
          from rfl]
      rw [cleanStrArray_idem]
      rw [show safeClean (some (safeClean ns)) = safeClean ns from safeClean_safeClean ns]

/-! ## Lemmas about the extractor -/

theorem jsSubstring_eq_of_bounds (s : String) (i j : Nat) (hi : i < s.data.length)
    (hj : j ≤ s.data.length) (hij : i ≤ j) :
    jsSubstring s i j = ⟨(s.data.drop i).take (j - i)⟩ := by
  show (⟨(s.data.drop (min (min i s.data.length) (min j s.data.length))).take
      (max (min i s.data.length) (min j s.data.length)
        - min (min i s.data.length) (min j s.data.length))⟩ : String) = _
  have h1 : min i s.data.length = i := by omega
  have h2 : min j s.data.length = j := by omega
  rw [h1, h2]
  have h3 : min i j = i := by omega
  have h4 : max i j = j := by omega
  rw [h3, h4]

theorem jsLastIndexOf_succ_le {s : String} {c : Char} {j : Nat}
    (h : jsLastIndexOf s c = some j) : j + 1 ≤ s.data.length := by
  unfold jsLastIndexOf at h
  cases hk : firstIdxFrom c s.data.reverse with
  | none => rw [hk] at h; exact Option.noConfusion h
  | some k =>
    rw [hk] at h
    have h' : some (s.data.length - 1 - k) = some j := h
    cases h'
    have hlt : k < s.data.reverse.length := firstIdxFrom_lt_length hk
    rw [List.length_reverse] at hlt
    omega

theorem extractJsonSpan_noBrace (raw : String) (h : '{' ∉ raw.data ∨ '}' ∉ raw.data) :
    extractJsonSpan raw = Except.error "No JSON object found in the AI's response." := by
  unfold extractJsonSpan
  rcases h with h | h
  · rw [show jsIndexOf raw '{' = none from firstIdxFrom_none_of_not_mem h]
  · have h2 : jsLastIndexOf raw '}' = none := by
      show (firstIdxFrom '}' raw.data.reverse).map _ = none
      rw [firstIdxFrom_none_of_not_mem (by simpa using h)]
      rfl
    rw [h2]
    cases jsIndexOf raw '{' <;> rfl

theorem extractJsonSpan_eq_of_indices (raw : String) (i j : Nat)
    (hi : jsIndexOf raw '{' = some i) (hj : jsLastIndexOf raw '}' = some j) (hij : i ≤ j) :
    extractJsonSpan raw =
      match parseJson ⟨(raw.data.drop i).take (j + 1 - i)⟩ with
      | some v => Except.ok v
      | none => Except.error "Unexpected token in JSON" := by
  unfold extractJsonSpan
  rw [hi, hj]
  show (match parseJson (jsSubstring raw i (j + 1)) with
    | some parsedJson => Except.ok parsedJson
    | none => Except.error "Unexpected token in JSON") = _
  rw [jsSubstring_eq_of_bounds raw i (j + 1) (firstIdxFrom_lt_length hi)
    (jsLastIndexOf_succ_le hj) (by omega)]

/-! ## The claims -/

/-- **C2** (counterexample). On the raw response `"\x7d5\x7b"` the first `\x7b`
is at index 2 and the last `\x7d` at index 0.  The claim's "inclusive
substring between those indices" fails to parse under either reading (the
span from index 2 to index 0 is empty; the range covering indices 0..2 is
the whole string), so the claim predicts an ExtractionError — but
`substring(2, 1)` swaps its arguments to `substring(1, 2)`, yielding `"5"`,
which parses, and the extractor succeeds with the number `5`. -/
theorem c2_counterexample :
    extractJsonSpan "\x7d5\x7b" = Except.ok (Json.num 5) ∧
    parseJson "\x7d5\x7b" = none ∧ parseJson "" = none :=
  ⟨rfl, rfl, rfl⟩

/-- **C2** (amended): the Response Extractor computes the index of the first
`\x7b` and the index of the last `\x7d`; if either is absent it fails with an
ExtractionError; otherwise it JSON-parses `substring(first, last + 1)`, which
— whenever the first `\x7b` precedes the last `\x7d` — is exactly the
inclusive substring between those indices, failing with ExtractionError on
parse failure and returning the generic parsed value on success.  (When the
last `\x7d` precedes the first `\x7b`, JavaScript's `substring` swaps its
endpoints, so the parsed text is the fragment strictly between them.) -/
theorem c2_extractor_first_last_brace (raw : String) :
    (('{' ∉ raw.data ∨ '}' ∉ raw.data) →
      extractJsonSpan raw = Except.error "No JSON object found in the AI's response.") ∧
    (∀ i j, jsIndexOf raw '{' = some i → jsLastIndexOf raw '}' = some j → i ≤ j →
      extractJsonSpan raw =
        match parseJson ⟨(raw.data.drop i).take (j + 1 - i)⟩ with
        | some v => Except.ok v
        | none => Except.error "Unexpected token in JSON") :=
  ⟨extractJsonSpan_noBrace raw, fun i j hi hj hij => extractJsonSpan_eq_of_indices raw i j hi hj hij⟩

/-- **C2** (witness): the amended theorem evaluated at a response with no
braces, and at `"x\x7b\"k\":1\x7dy"` whose brace span parses. -/
theorem c2_extractor_first_last_brace_witness :
    extractJsonSpan "no json here" = Except.error "No JSON object found in the AI's response." ∧
    extractJsonSpan "x\x7b\"k\":1\x7dy" = Except.ok (Json.obj [("k", Json.num 1)]) := by
  constructor
  · exact (c2_extractor_first_last_brace "no json here").1 (Or.inl (by decide))
  · have h := (c2_extractor_first_last_brace "x\x7b\"k\":1\x7dy").2 1 7 rfl rfl (by omega)
    rw [h]
    rfl

/-- **C4**: for every raw response with no `\x7b` or no `\x7d`, both cited
flows return the extraction fallback whose primary narrative field is the
localized "unparsable response" diagnostic with the raw response appended
verbatim. -/
theorem c4_no_brace_fallback_carries_raw (lang : Lang) (analysisType : AnalysisType)
    (raw : String) (h : '{' ∉ raw.data ∨ '}' ∉ raw.data) :
    analyzeEnergyImagePost analysisType lang raw
        = Except.ok (energyFallback analysisType (energyParseErrorText lang raw)) ∧
    (energyFallback analysisType (energyParseErrorText lang raw)).summary
        = energyParseErrorText lang "" ++ raw ∧
    analyzeInspirationImagePost lang raw
        = Except.ok (inspirationFallback (inspirationParseErrorText lang raw)) ∧
    (inspirationFallback (inspirationParseErrorText lang raw)).designRecommendations.overallTheme
        = inspirationParseErrorText lang "" ++ raw := by
  refine ⟨?_, ?_, ?_, ?_⟩
  · unfold analyzeEnergyImagePost
    rw [extractJsonSpan_noBrace raw h]
  · show energyParseErrorText lang raw = energyParseErrorText lang "" ++ raw
    cases lang <;> simp [energyParseErrorText]
  · unfold analyzeInspirationImagePost
    rw [extractJsonSpan_noBrace raw h]
  · show inspirationParseErrorText lang raw = inspirationParseErrorText lang "" ++ raw
    cases lang <;> simp [inspirationParseErrorText]

/-- **C4** (witness): the no-brace refusal `"I cannot help with that."`
produces the extraction fallback in both flows. -/
theorem c4_no_brace_fallback_carries_raw_witness :
    ('{' ∉ "I cannot help with that.".data ∨ '}' ∉ "I cannot help with that.".data) ∧
    analyzeEnergyImagePost AnalysisType.energyField Lang.en "I cannot help with that."
      = Except.ok (energyFallback AnalysisType.energyField
          (energyParseErrorText Lang.en "I cannot help with that.")) ∧
    analyzeInspirationImagePost Lang.en "I cannot help with that."
      = Except.ok (inspirationFallback
          (inspirationParseErrorText Lang.en "I cannot help with that.")) := by
  have h : '{' ∉ "I cannot help with that.".data ∨ '}' ∉ "I cannot help with that.".data :=
    Or.inl (by decide)
  obtain ⟨h1, _, h3, _⟩ :=
    c4_no_brace_fallback_carries_raw Lang.en AnalysisType.energyField "I cannot help with that." h
  exact ⟨h, h1, h3⟩

/-! ## Totality of the post-transport stages (helpers shared by C1 and C8) -/

theorem energyPost_ok (analysisType : AnalysisType) (lang : Lang) (raw : String) :
    ∃ o, analyzeEnergyImagePost analysisType lang raw = Except.ok o := by
  cases hex : extractJsonSpan raw with
  | error e =>
    exact ⟨energyFallback analysisType (energyParseErrorText lang raw),
      by simp only [analyzeEnergyImagePost, hex]⟩
  | ok parsedJson =>
    cases hval : validateEnergyOutput parsedJson with
    | ok data =>
      exact ⟨normalizeEnergy data, by simp only [analyzeEnergyImagePost, hex, hval]⟩
    | error errs =>
      exact ⟨energyFallback analysisType (energyValidationErrorText lang errs),
        by simp only [analyzeEnergyImagePost, hex, hval]⟩

theorem inspirationPost_ok (lang : Lang) (raw : String) :
    ∃ o, analyzeInspirationImagePost lang raw = Except.ok o := by
  cases hex : extractJsonSpan raw with
  | error e =>
    exact ⟨inspirationFallback (inspirationParseErrorText lang raw),
      by simp only [analyzeInspirationImagePost, hex]⟩
  | ok parsedJson =>
    cases hval : validateInspirationOutput parsedJson with
    | ok data =>
      exact ⟨normalizeInspiration data, by simp only [analyzeInspirationImagePost, hex, hval]⟩
    | error errs =>
      exact ⟨inspirationFallback (inspirationValidationErrorText lang errs),
        by simp only [analyzeInspirationImagePost, hex, hval]⟩

theorem designPost_ok (lang : Lang) (raw : String) :
    ∃ o, generateDesignSuggestionsPost lang raw = Except.ok o := by
  cases hex : extractJsonSpan raw with
  | error e =>
    exact ⟨designExtractionFallback lang raw,
      by simp only [generateDesignSuggestionsPost, hex]⟩
  | ok parsedJson =>
    cases hval : validateDesignOutput parsedJson with
    | ok data =>
      exact ⟨normalizeDesign data, by simp only [generateDesignSuggestionsPost, hex, hval]⟩
    | error errs =>
      exact ⟨designValidationFallback lang errs,
        by simp only [generateDesignSuggestionsPost, hex, hval]⟩

theorem profilePost_ok (lang : Lang) (inputName raw : String) :
    ∃ o, analyzeUserProfilePost lang inputName raw = Except.ok o := by
  cases hex : extractJsonSpan raw with
  | error e =>
    exact ⟨profileFallback inputName "Error" (profileParseErrorText lang raw),
      by simp only [analyzeUserProfilePost, hex]⟩
  | ok parsedJson =>
    cases hval : validateUserProfileOutput parsedJson with
    | ok data =>
      exact ⟨normalizeUserProfile data, by simp only [analyzeUserProfilePost, hex, hval]⟩
    | error errs =>
      exact ⟨profileFallback inputName "Validation Error" (profileValidationErrorText lang errs),
        by simp only [analyzeUserProfilePost, hex, hval]⟩

/-- **C8**: the post-transport part of each flow is total on every raw
response string whatsoever — it always returns a contract-shaped value
(`Except.ok`) and never propagates an exception, because every extraction
and validation failure branch returns a fallback record. -/
theorem c8_post_transport_total (analysisType : AnalysisType) (lang : Lang)
    (inputName raw : String) :
    (∃ o, analyzeEnergyImagePost analysisType lang raw = Except.ok o) ∧
    (∃ o, analyzeInspirationImagePost lang raw = Except.ok o) ∧
    (∃ o, analyzeUserProfilePost lang inputName raw = Except.ok o) :=
  ⟨energyPost_ok analysisType lang raw, inspirationPost_ok lang raw,
    profilePost_ok lang inputName raw⟩

/-- **C1**: when the Generation Client resolves, the flow returns a
contract-conformant record (data-shape failures never surface as exceptions);
when the Generation Client throws, the error is rethrown with a localized
message and never converted into a fallback record. -/
theorem c1_data_shape_absorbed_transport_rethrown (analysisType : AnalysisType)
    (language : Option Lang) (raw e : String) :
    (∃ o, analyzeEnergyImage analysisType language (Except.ok raw) = Except.ok o) ∧
    analyzeEnergyImage analysisType language (Except.error e)
        = Except.error (energyTransportErrorMsg (language.getD Lang.en) e) ∧
    (∃ o, analyzeInspirationImage language (Except.ok raw) = Except.ok o) ∧
    analyzeInspirationImage language (Except.error e)
        = Except.error (inspirationTransportErrorMsg (language.getD Lang.en) e) := by
  refine ⟨?_, rfl, ?_, rfl⟩
  · obtain ⟨o, ho⟩ := energyPost_ok analysisType (language.getD Lang.en) raw
    refine ⟨o, ?_⟩
    show (match analyzeEnergyImagePost analysisType (language.getD Lang.en) raw with
      | .ok data => Except.ok data
      | .error e => Except.error (energyTransportErrorMsg (language.getD Lang.en) e))
        = Except.ok o
    rw [ho]
  · obtain ⟨o, ho⟩ := inspirationPost_ok (language.getD Lang.en) raw
    refine ⟨o, ?_⟩
    show (match analyzeInspirationImagePost (language.getD Lang.en) raw with
      | .ok data => Except.ok data
      | .error e => Except.error (inspirationTransportErrorMsg (language.getD Lang.en) e))
        = Except.ok o
    rw [ho]

/-- **C5**: the normalizers of the two cited flows are idempotent — trimming
every string leaf, filtering string arrays and recursing into nested records
a second time changes nothing. -/
theorem c5_normalize_idempotent :
    (∀ x : EnergyImageAnalysisOutput, normalizeEnergy (normalizeEnergy x) = normalizeEnergy x) ∧
    (∀ y : AnalyzeInspirationImageOutput,
      normalizeInspiration (normalizeInspiration y) = normalizeInspiration y) :=
  ⟨normalizeEnergy_idem, normalizeInspiration_idem⟩

/-- A validated inspiration record whose `colorPalette` holds an untrimmed
element; used to refute C6 as stated. -/
def c6PaletteRecord : AnalyzeInspirationImageOutput :=
  { designRecommendations :=
      { overallTheme := "t"
        keyElementsAndShapes := []
        textureAndPatternIdeas := []
        potentialMaterials := some []
        narrativeOrSymbolism := some "" }
    colorPalette := [" #fff "] }

/-- **C6** (counterexample): `colorPalette` is *not* trimmed by the
Normalizer — the element `" #fff "` survives unchanged, although trimming
(as the claim demands for every string-array leaf, colorPalette included)
would have produced `"#fff"`. -/
theorem c6_counterexample_colorPalette_not_trimmed :
    (normalizeInspiration c6PaletteRecord).colorPalette = [" #fff "] ∧
    jsTrim " #fff " = "#fff" ∧ (" #fff " : String) ≠ "#fff" :=
  ⟨rfl, rfl, by decide⟩

/-- **C6** (amended): every string-array leaf *except* `colorPalette` is
trimmed element-wise and then filtered of elements that became empty
(`cleanStrArray`), recursively inside nested objects; `colorPalette` — in
both cited flows — is only filtered of empty strings (`filterTruthy`),
without trimming its elements. -/
theorem c6_string_arrays_trimmed_filtered_except_palette
    (x : EnergyImageAnalysisOutput) (y : AnalyzeInspirationImageOutput) (l : List String) :
    (normalizeEnergy x).associatedChakras = x.associatedChakras.map cleanStrArray ∧
    (normalizeEnergy x).colorPalette = x.colorPalette.map filterTruthy ∧
    (normalizeInspiration y).designRecommendations.keyElementsAndShapes
        = cleanStrArray y.designRecommendations.keyElementsAndShapes ∧
    (normalizeInspiration y).designRecommendations.textureAndPatternIdeas
        = cleanStrArray y.designRecommendations.textureAndPatternIdeas ∧
    (normalizeInspiration y).designRecommendations.potentialMaterials
        = some (cleanStrArray (y.designRecommendations.potentialMaterials.getD [])) ∧
    (normalizeInspiration y).colorPalette = filterTruthy y.colorPalette ∧
    cleanStrArray l = (l.map (fun s => safeClean (some s))).filter (fun s => s != "") ∧
    filterTruthy l = l.filter (fun s => s != "") :=
  ⟨rfl, rfl, rfl, rfl, rfl, rfl, rfl, rfl⟩

/-- **C7**: for a fixed raw response, running the post-transport pipeline
with language `en` and with language `zh` takes the same branch (success,
extraction fallback or validation fallback, as computed by the
language-independent `energyClassification`); the two outputs agree on every
field except the diagnostic-bearing `summary`, are fully equal on success,
and in the fallback branches the summaries are the respective localized
diagnostics over identical underlying data. -/
theorem c7_language_only_changes_diagnostic (analysisType : AnalysisType) (raw : String) :
    ∃ oEn oZh,
      analyzeEnergyImagePost analysisType Lang.en raw = Except.ok oEn ∧
      analyzeEnergyImagePost analysisType Lang.zh raw = Except.ok oZh ∧
      redactEnergySummary oEn = redactEnergySummary oZh ∧
      (energyClassification raw = PipelineBranch.success → oEn = oZh) ∧
      (energyClassification raw = PipelineBranch.extractionFailed →
        oEn.summary = energyParseErrorText Lang.en raw ∧
        oZh.summary = energyParseErrorText Lang.zh raw) ∧
      (energyClassification raw = PipelineBranch.validationFailed →
        ∃ errs, validateEnergyOutput <$> (extractJsonSpan raw).toOption
              = some (Except.error errs) ∧
          oEn.summary = energyValidationErrorText Lang.en errs ∧
          oZh.summary = energyValidationErrorText Lang.zh errs) := by
  cases hex : extractJsonSpan raw with
  | error e =>
    have hclass : energyClassification raw = PipelineBranch.extractionFailed := by
      simp only [energyClassification, hex]
    refine ⟨energyFallback analysisType (energyParseErrorText Lang.en raw),
      energyFallback analysisType (energyParseErrorText Lang.zh raw),
      by simp only [analyzeEnergyImagePost, hex],
      by simp only [analyzeEnergyImagePost, hex], rfl, ?_, fun _ => ⟨rfl, rfl⟩, ?_⟩
    · intro h; rw [hclass] at h; simp at h
    · intro h; rw [hclass] at h; simp at h
  | ok parsedJson =>
    cases hval : validateEnergyOutput parsedJson with
    | ok data =>
      have hclass : energyClassification raw = PipelineBranch.success := by
        simp only [energyClassification, hex, hval]
      refine ⟨normalizeEnergy data, normalizeEnergy data,
        by simp only [analyzeEnergyImagePost, hex, hval],
        by simp only [analyzeEnergyImagePost, hex, hval], rfl, fun _ => rfl, ?_, ?_⟩
      · intro h; rw [hclass] at h; simp at h
      · intro h; rw [hclass] at h; simp at h
    | error errs =>
      have hclass : energyClassification raw = PipelineBranch.validationFailed := by
        simp only [energyClassification, hex, hval]
      refine ⟨energyFallback analysisType (energyValidationErrorText Lang.en errs),
        energyFallback analysisType (energyValidationErrorText Lang.zh errs),
        by simp only [analyzeEnergyImagePost, hex, hval],
        by simp only [analyzeEnergyImagePost, hex, hval], rfl, ?_, ?_,
        fun _ => ⟨errs, by
          show some (validateEnergyOutput parsedJson) = some (Except.error errs)
          rw [hval], rfl, rfl⟩⟩
      · intro h; rw [hclass] at h; simp at h
      · intro h; rw [hclass] at h; simp at h

/-- **C7** (witness): on a raw response that validates, the `en` and `zh`
runs are classified as success and produce identical outputs. -/
theorem c7_language_only_changes_diagnostic_witness :
    energyClassification "\x7b\"analysisType\":\"energyField\",\"summary\":\"hi\"\x7d"
        = PipelineBranch.success ∧
    analyzeEnergyImagePost AnalysisType.energyField Lang.en
        "\x7b\"analysisType\":\"energyField\",\"summary\":\"hi\"\x7d"
      = analyzeEnergyImagePost AnalysisType.energyField Lang.zh
        "\x7b\"analysisType\":\"energyField\",\"summary\":\"hi\"\x7d" := by
  obtain ⟨oEn, oZh, hEn, hZh, _, hs, _, _⟩ :=
    c7_language_only_changes_diagnostic AnalysisType.energyField
      "\x7b\"analysisType\":\"energyField\",\"summary\":\"hi\"\x7d"
  have hc : energyClassification "\x7b\"analysisType\":\"energyField\",\"summary\":\"hi\"\x7d"
      = PipelineBranch.success := by rfl
  refine ⟨hc, ?_⟩
  rw [hEn, hZh, hs hc]

/-- **C9**: whenever the fetch rejects or returns a non-success status,
`generateText` throws an `Error` whose message is exactly
`'Failed to generate text'` — the status code and original cause are
discarded — and the transport error a flow rethrows carries only the
localized prefix plus that fixed message. -/
theorem c9_transport_error_fixed_message (outcome : FetchOutcome) (h : fetchFailed outcome) :
    generateText outcome = Except.error "Failed to generate text" ∧
    ∀ (analysisType : AnalysisType) (language : Option Lang),
      analyzeEnergyImage analysisType language (generateText outcome)
        = Except.error
            (energyTransportErrorMsg (language.getD Lang.en) "Failed to generate text") := by
  cases outcome with
  | reject msg => exact ⟨rfl, fun analysisType language => rfl⟩
  | response ok status body =>
    cases ok with
    | false => exact ⟨rfl, fun analysisType language => rfl⟩
    | true => exact absurd h (by simp [fetchFailed])

/-- **C9** (witness): a 503 response yields exactly the fixed message. -/
theorem c9_transport_error_fixed_message_witness :
    fetchFailed (FetchOutcome.response false 503 "Service Unavailable") ∧
    generateText (FetchOutcome.response false 503 "Service Unavailable")
      = Except.error "Failed to generate text" := by
  have hf : fetchFailed (FetchOutcome.response false 503 "Service Unavailable") := rfl
  exact ⟨hf, (c9_transport_error_fixed_message _ hf).1⟩

/-- **C10**: `analyzeUserProfile`'s normalization always materializes
`recommendedCrystals` and `crystalCombinations` as present arrays — in
particular as `[]` when they were absent from the validated value — and
every record the post-transport stage returns has both arrays present. -/
theorem c10_optional_arrays_materialized (v : UserProfileDataOutput) (lang : Lang)
    (inputName raw : String) (o : UserProfileDataOutput) :
    (∃ l, (normalizeUserProfile v).recommendedCrystals = some l) ∧
    (∃ l, (normalizeUserProfile v).crystalCombinations = some l) ∧
    (v.recommendedCrystals = none → (normalizeUserProfile v).recommendedCrystals = some []) ∧
    (v.crystalCombinations = none → (normalizeUserProfile v).crystalCombinations = some []) ∧
    (analyzeUserProfilePost lang inputName raw = Except.ok o →
      (∃ l, o.recommendedCrystals = some l) ∧ ∃ l, o.crystalCombinations = some l) := by
  refine ⟨⟨_, rfl⟩, ⟨_, rfl⟩, ?_, ?_, ?_⟩
  · intro h
    show some ((v.recommendedCrystals.getD []).map normalizeRecommendedCrystal) = some []
    rw [h]
    rfl
  · intro h
    show some ((v.crystalCombinations.getD []).map _) = some []
    rw [h]
    rfl
  · intro h
    cases hex : extractJsonSpan raw with
    | error e =>
      have h2 : (Except.ok (profileFallback inputName "Error" (profileParseErrorText lang raw))
          : Except String UserProfileDataOutput) = Except.ok o := by
        rw [← h]; simp only [analyzeUserProfilePost, hex]
      injection h2 with h3
      rw [← h3]
      exact ⟨⟨[], rfl⟩, ⟨[], rfl⟩⟩
    | ok parsedJson =>
      cases hval : validateUserProfileOutput parsedJson with
      | ok data =>
        have h2 : (Except.ok (normalizeUserProfile data)
            : Except String UserProfileDataOutput) = Except.ok o := by
          rw [← h]; simp only [analyzeUserProfilePost, hex, hval]
        injection h2 with h3
        rw [← h3]
        exact ⟨⟨_, rfl⟩, ⟨_, rfl⟩⟩
      | error errs =>
        have h2 : (Except.ok (profileFallback inputName "Validation Error"
            (profileValidationErrorText lang errs))
            : Except String UserProfileDataOutput) = Except.ok o := by
          rw [← h]; simp only [analyzeUserProfilePost, hex, hval]
        injection h2 with h3
        rw [← h3]
        exact ⟨⟨[], rfl⟩, ⟨[], rfl⟩⟩

/-- A validated user profile with both optional crystal arrays absent. -/
def c10AbsentArraysProfile : UserProfileDataOutput :=
  { name := none
    coreEnergyInsights := "a"
    inferredZodiac := "b"
    inferredChineseZodiac := "c"
    inferredElement := "d"
    inferredPlanet := "e"
    mbtiLikeType := "f"
    chakraAnalysis := "g"
    recommendedCrystals := none
    crystalCombinations := none }

/-- **C10** (witness): absent optional arrays are materialized as `[]`. -/
theorem c10_optional_arrays_materialized_witness :
    c10AbsentArraysProfile.recommendedCrystals = none ∧
    (normalizeUserProfile c10AbsentArraysProfile).recommendedCrystals = some [] ∧
    (normalizeUserProfile c10AbsentArraysProfile).crystalCombinations = some [] := by
  obtain ⟨_, _, h3, h4, _⟩ :=
    c10_optional_arrays_materialized c10AbsentArraysProfile Lang.en "" ""
      (normalizeUserProfile c10AbsentArraysProfile)
  exact ⟨rfl, h3 rfl, h4 rfl⟩

/-- **C3** (counterexample): the extraction fallback of the design-suggestions
flow does *not* set all non-primary required fields to empty defaults — the
required `designConcept` is the placeholder `"Parsing Error"`, the optional
`personalizedIntroduction` is a fixed sentence, and `designSchemes` is a
one-element error scheme rather than `[]`; the diagnostic itself sits in
`designSchemes[0].mainStoneDescription`. -/
theorem c3_counterexample_design_fallback_not_empty :
    generateDesignSuggestionsPost Lang.en "no braces here"
        = Except.ok (designExtractionFallback Lang.en "no braces here") ∧
    (designExtractionFallback Lang.en "no braces here").designConcept = "Parsing Error" ∧
    "Parsing Error" ≠ "" ∧
    (designExtractionFallback Lang.en "no braces here").personalizedIntroduction
        = some "Could not generate personalized introduction." ∧
    (designExtractionFallback Lang.en "no braces here").designSchemes ≠ [] :=
  ⟨rfl, rfl, by decide, rfl, by decide⟩

/-- **C3** (amended): in the user-profile flow every fallback sets all
non-primary *required* fields to `""`, materializes both optional arrays as
`[]`, carries the localized diagnostic only in the primary
`coreEnergyInsights` field, and sets the optional `name` to the caller's
name (or a fixed placeholder when that is empty).  In the design-suggestions
flow the fallback instead sets `designConcept` and `personalizedIntroduction`
to fixed localized placeholder strings, carries the diagnostic in a single
error scheme's `mainStoneDescription`, and only `accessorySuggestions`,
`photographySettingSuggestions` and `concludingRemarks` get empty defaults. -/
theorem c3_fallback_field_contents (lang : Lang) (raw inputName : String)
    (errs : List String) :
    (profileFallback inputName "Error" (profileParseErrorText lang raw)).coreEnergyInsights
        = profileParseErrorText lang raw ∧
    (profileFallback inputName "Error" (profileParseErrorText lang raw)).inferredZodiac = "" ∧
    (profileFallback inputName "Error" (profileParseErrorText lang raw)).inferredChineseZodiac
        = "" ∧
    (profileFallback inputName "Error" (profileParseErrorText lang raw)).inferredElement = "" ∧
    (profileFallback inputName "Error" (profileParseErrorText lang raw)).inferredPlanet = "" ∧
    (profileFallback inputName "Error" (profileParseErrorText lang raw)).mbtiLikeType = "" ∧
    (profileFallback inputName "Error" (profileParseErrorText lang raw)).chakraAnalysis = "" ∧
    (profileFallback inputName "Error" (profileParseErrorText lang raw)).recommendedCrystals
        = some [] ∧
    (profileFallback inputName "Error" (profileParseErrorText lang raw)).crystalCombinations
        = some [] ∧
    (profileFallback inputName "Error" (profileParseErrorText lang raw)).name
        = some (if inputName != "" then inputName else "Error") ∧
    (profileFallback inputName "Validation Error"
        (profileValidationErrorText lang errs)).coreEnergyInsights
        = profileValidationErrorText lang errs ∧
    (profileFallback inputName "Validation Error"
        (profileValidationErrorText lang errs)).name
        = some (if inputName != "" then inputName else "Validation Error") ∧
    (designExtractionFallback lang raw).designConcept
        = (match lang with | Lang.zh => "解析错误" | Lang.en => "Parsing Error") ∧
    (designValidationFallback lang errs).designConcept
        = (match lang with | Lang.zh => "验证失败" | Lang.en => "Validation Error") ∧
    (designExtractionFallback lang raw).personalizedIntroduction
        = some (match lang with
            | Lang.zh => "无法生成个性化介绍"
            | Lang.en => "Could not generate personalized introduction.") ∧
    (designExtractionFallback lang raw).designSchemes
        = [{ schemeTitle := match lang with | Lang.zh => "错误" | Lang.en => "Error"
             mainStoneDescription := designParseErrorText lang raw
             auxiliaryStonesDescription := none
             chainOrStructureDescription := none
             otherDetails := none }] ∧
    (designValidationFallback lang errs).designSchemes
        = [{ schemeTitle := match lang with | Lang.zh => "错误" | Lang.en => "Error"
             mainStoneDescription := designValidationErrorText lang errs
             auxiliaryStonesDescription := none
             chainOrStructureDescription := none
             otherDetails := none }] ∧
    (designExtractionFallback lang raw).accessorySuggestions = "" ∧
    (designExtractionFallback lang raw).photographySettingSuggestions = "" ∧
    (designExtractionFallback lang raw).concludingRemarks = some "" :=
  ⟨rfl, rfl, rfl, rfl, rfl, rfl, rfl, rfl, rfl, rfl, rfl, rfl, rfl, rfl, rfl, rfl, rfl, rfl,
    rfl, rfl⟩
